import Mathlib

/-!
Shallow embedding of `torchdata/dataloader2/dataloader2.py`: the `DataLoader2`
iteration orchestrator and its `DataLoader2Iterator` proxy.

The underlying datapipe is embedded as a script of pull behaviours (an element,
a `PauseIteration` signal, or some other exception); exhaustion
(`StopIteration`) is the empty script.  Calls the orchestrator makes on the
attached reading service are recorded as an event list.  Parts of the
repository outside the excerpt (the seed generator, the serialization codec)
are modelled from the spec, as flagged in their doc comments.
-/

/-- One scripted behaviour of a pull on the underlying datapipe iterator:
yield an element, raise the pause signal (`PauseIteration`), or raise some
other exception.  `StopIteration` (exhaustion) is the empty script. -/
inductive PullOutcome where
  | elem (v : Nat)
  | pauseSignal
  | errSignal
  deriving DecidableEq, Repr

/-- A pipeline graph, identified with the script its fresh iterator yields
(`iter(datapipe)` is the identity on this view). -/
abbrev Graph := List PullOutcome

/-- Opaque serialized state of a checkpointable reading service. -/
abbrev RSState := Nat

/-- Modelled from the spec: the Seed Generator (`random/seed_generator.py` is
not in the excerpt) holds a root seed and a derivation counter; reseeding
stores the given root and restarts derivation. -/
structure SeedGenState where
  rootSeed : Int
  counter : Nat
  deriving DecidableEq, Repr

/-- Modelled from the spec: `SeedGenerator.seed(v)` replaces the root seed and
restarts the derivation counter. -/
def seedGenReseed (v : Int) : SeedGenState := ⟨v, 0⟩

/-- Modelled from the spec: the fixed 64-bit upper bound
`_UINT64_UPPER_BOUND` imported from `seed_generator.py` (not in the
excerpt). -/
def UINT64_UPPER_BOUND : Int := 2 ^ 64

/-- Observable lifecycle calls the orchestrator makes on the attached reading
service (the execution backend). -/
inductive RSEvent where
  | adaptInit
  | adaptRestore
  | initIteration
  | finalizeIteration
  | finalizeService
  deriving DecidableEq, Repr

/-- Model of a pluggable reading service: the lifecycle hooks of
`ReadingServiceInterface` as pure functions over the graph, plus the
checkpoint capability of `CheckpointableReadingServiceInterface`
(`checkpointable` models the `isinstance` test, `checkpointFn` the state its
`checkpoint()` returns). -/
structure ReadingService where
  checkpointable : Bool
  adaptFn : Graph → Graph
  restoreFn : Graph → RSState → Graph
  initIterFn : SeedGenState → Option (Graph → Graph)
  checkpointFn : RSState

/-- The mutable attributes of a `DataLoader2` instance.  `entropy` is the
external randomness stream consumed by `SeedGenerator.seed()` when it is
called with no pending user seed (modelled from the spec: fresh root seeds
are nondeterministic). -/
structure DL2State where
  datapipe : Option Graph
  adapted : Bool
  datapipeIter : Option Graph
  resetIter : Bool
  readingService : Option ReadingService
  readingServiceState : Option RSState
  terminated : Bool
  validIteratorId : Option Nat
  datapipeBeforeRSAdapt : Option Graph
  seedGenerator : SeedGenState
  seed : Option Int
  resetSeed : Bool
  entropy : List Int

/-- Errors raised by orchestrator entry points. -/
inductive DLError where
  | missingDatapipe
  | alreadyShutDown
  | nonCheckpointableRestore
  | valueRange
  deriving DecidableEq, Repr

/-- Embedding of `DataLoader2.__init__`: `clone` is the identity on immutable
values; adapters are applied in sequence to the owned datapipe; the result is
snapshotted (`_datapipe_before_reading_service_adapt`) before any
reading-service adaptation. -/
def dlInit (datapipe : Option Graph) (adapters : List (Graph → Graph))
    (rs : Option ReadingService) (entropy : List Int) : DL2State :=
  let dp : Option Graph :=
    match datapipe with
    | some g => some (adapters.foldl (fun acc f => f acc) g)
    | none => none
  { datapipe := dp
    adapted := false
    datapipeIter := none
    resetIter := true
    readingService := rs
    readingServiceState := none
    terminated := false
    validIteratorId := none
    datapipeBeforeRSAdapt := dp
    seedGenerator := ⟨0, 0⟩
    seed := none
    resetSeed := true
    entropy := entropy }

/-- Python truthiness of the stored `Optional[int]` seed (`if self._seed:`):
`None` and `0` are falsy; every other integer, negative included, is
truthy. -/
def seedTruthy : Option Int → Bool
  | none => false
  | some v => v != 0

/-- Seed handling at the top of the `_reset_iter` branch of
`DataLoader2.__iter__`: apply the pending seed if it is truthy and not yet
consumed; reseed with a fresh root (drawn from the entropy stream) if it is
falsy; otherwise leave the generator untouched. -/
def seedStep (s : DL2State) : DL2State :=
  if seedTruthy s.seed then
    if s.resetSeed then
      { s with seedGenerator := seedGenReseed (s.seed.getD 0), resetSeed := false }
    else s
  else
    { s with seedGenerator := seedGenReseed (s.entropy.headD 0)
             entropy := s.entropy.tail }

/-- Result of the one-time reading-service adaptation step of
`DataLoader2.__iter__` (`initialize` or `restore`). -/
structure AdaptResult where
  error : Option DLError
  graph : Graph
  adapted : Bool
  events : List RSEvent

/-- The `not self._adapted and self.reading_service is not None` block of
`DataLoader2.__iter__`: `initialize` when no serialized state was loaded,
`restore` when one was (raising `TypeError` if the reading service is not
checkpointable). -/
def adaptStep (s : DL2State) (g0 : Graph) : AdaptResult :=
  if s.adapted then ⟨none, g0, s.adapted, []⟩
  else
    match s.readingService with
    | none => ⟨none, g0, s.adapted, []⟩
    | some rs =>
      match s.readingServiceState with
      | none => ⟨none, rs.adaptFn g0, true, [RSEvent.adaptInit]⟩
      | some st =>
        if rs.checkpointable then
          ⟨none, rs.restoreFn g0 st, true, [RSEvent.adaptRestore]⟩
        else ⟨some DLError.nonCheckpointableRestore, g0, s.adapted, []⟩

/-- The `initialize_iteration` call of `DataLoader2.__iter__`: the reading
service receives the (already reseeded) seed generator and may return a
graph-rewriting function that is applied before the iterator is drawn. -/
def initIterStep (rs : Option ReadingService) (gen : SeedGenState) (g : Graph) :
    Graph × List RSEvent :=
  match rs with
  | none => (g, [])
  | some r =>
    match r.initIterFn gen with
    | some f => (f g, [RSEvent.initIteration])
    | none => (g, [RSEvent.initIteration])

/-- The `valid_iterator_id` bump at the end of `DataLoader2.__iter__`:
`0 if self.valid_iterator_id is None else self.valid_iterator_id + 1`. -/
def bumpId : Option Nat → Nat
  | none => 0
  | some v => v + 1

/-- Result of a `DataLoader2.__iter__` call: the error raised (if any), the
mutated loader state, the id of the returned `DataLoader2Iterator` proxy, and
the reading-service calls made. -/
structure IterResult where
  error : Option DLError
  state : DL2State
  iteratorId : Option Nat
  events : List RSEvent

/-- Embedding of `DataLoader2.__iter__`.  On an error the state mutated so
far is kept, mirroring Python's in-place mutation before the raise. -/
def dlIter (s : DL2State) : IterResult :=
  if s.datapipe.isNone then ⟨some DLError.missingDatapipe, s, none, []⟩
  else if s.terminated then ⟨some DLError.alreadyShutDown, s, none, []⟩
  else
    let newId := bumpId s.validIteratorId
    if s.resetIter then
      let s1 := seedStep s
      let a := adaptStep s1 (s.datapipe.getD [])
      if a.error.isSome then ⟨a.error, s1, none, a.events⟩
      else
        let p := initIterStep s1.readingService s1.seedGenerator a.graph
        ⟨none,
         { s1 with datapipe := some p.1
                   adapted := a.adapted
                   datapipeIter := some p.1
                   resetIter := false
                   validIteratorId := some newId }
         , some newId, a.events ++ p.2⟩
    else
      ⟨none, { s with validIteratorId := some newId }, some newId, []⟩

/-- Embedding of `DataLoader2.shutdown`.  The discard branch runs only when
`_reset_iter` is false; the finalize branch runs only when not yet
terminated. -/
def dlShutdown (s : DL2State) : DL2State × List RSEvent :=
  let s1 := if s.resetIter then s
            else { s with resetIter := true, datapipeIter := none }
  if s1.terminated then (s1, [])
  else
    match s1.readingService with
    | some _ =>
      ({ s1 with terminated := true },
       [RSEvent.finalizeIteration, RSEvent.finalizeService])
    | none => ({ s1 with terminated := true }, [])

/-- What a `DataLoader2Iterator.__next__` call does, as seen by the caller:
return an element, raise `StopIteration`, re-raise some other exception after
shutting the loader down, or raise the invalid-iterator `RuntimeError`. -/
inductive NextOutcome where
  | value (v : Nat)
  | stopped
  | failed
  | stale
  deriving DecidableEq, Repr

/-- Result of a `DataLoader2Iterator.__next__` call. -/
structure NextResult where
  outcome : NextOutcome
  state : DL2State
  events : List RSEvent

/-- Embedding of `DataLoader2Iterator.__next__` for the proxy bound to
`iteratorId`.  On a valid proxy `_reset_iter` is set before the pull; a
`PauseIteration` is translated to `StopIteration` (bypassing the
`StopIteration` handler); exhaustion calls `finalize_iteration`; any other
exception triggers a full `shutdown`; an invalidated proxy calls
`finalize_iteration` and raises `RuntimeError`. -/
def dlNext (s : DL2State) (iteratorId : Nat) : NextResult :=
  if s.validIteratorId = some iteratorId then
    let s1 := { s with resetIter := true }
    match s1.datapipeIter with
    | none =>
      let p := dlShutdown s1
      ⟨NextOutcome.failed, p.1, p.2⟩
    | some [] =>
      ⟨NextOutcome.stopped, s1,
       if s1.readingService.isSome then [RSEvent.finalizeIteration] else []⟩
    | some (PullOutcome.elem v :: rest) =>
      ⟨NextOutcome.value v, { s1 with datapipeIter := some rest }, []⟩
    | some (PullOutcome.pauseSignal :: rest) =>
      ⟨NextOutcome.stopped, { s1 with datapipeIter := some rest }, []⟩
    | some (PullOutcome.errSignal :: rest) =>
      let p := dlShutdown { s1 with datapipeIter := some rest }
      ⟨NextOutcome.failed, p.1, p.2⟩
  else
    ⟨NextOutcome.stale, s,
     if s.readingService.isSome then [RSEvent.finalizeIteration] else []⟩

/-- Embedding of `DataLoader2.seed`.  The raised `ValueError` is the `some`
error; in that case the state is returned unchanged since the raise precedes
any mutation. -/
def dlSeed (s : DL2State) (seed : Int) : Option DLError × DL2State :=
  if UINT64_UPPER_BOUND ≤ seed then (some DLError.valueRange, s)
  else (none, { s with seed := some seed, resetSeed := true })

/-- Modelled from the spec: the checkpoint codec
(`graph/_serialization.py` is not in the excerpt) is an opaque byte form
with an exact round-trip; it is embedded as the identity. -/
def serializeDatapipe (g : Option Graph) : Option Graph := g

/-- Modelled from the spec: inverse of `serializeDatapipe`. -/
def deserializeDatapipe (g : Option Graph) : Option Graph := g

/-- The dictionary returned by `DataLoader2.state_dict`. -/
structure Bundle where
  serializedDatapipe : Option Graph
  readingServiceState : Option RSState

/-- Embedding of `DataLoader2.state_dict`: the reading-service slot is filled
only when a checkpointable reading service is attached; the graph slot always
holds the pre-adaptation snapshot.  The method has no failure path. -/
def dlStateDict (s : DL2State) : Bundle :=
  { serializedDatapipe := serializeDatapipe s.datapipeBeforeRSAdapt
    readingServiceState :=
      match s.readingService with
      | some rs => if rs.checkpointable then some rs.checkpointFn else none
      | none => none }

/-- Embedding of `DataLoader2.from_state`: a freshly constructed loader over
the deserialized graph with the given reading service, whose
`reading_service_state` is the bundle's state slot. -/
def dlFromState (state : Bundle) (rs : ReadingService) (entropy : List Int) :
    DL2State :=
  let dl := dlInit (deserializeDatapipe state.serializedDatapipe) [] (some rs) entropy
  { dl with readingServiceState := state.readingServiceState }

/-- Outcome sequence of `n` successive `next()` calls through the proxy bound
to `iteratorId`. -/
def pulls (s : DL2State) (iteratorId : Nat) : Nat → List NextOutcome
  | 0 => []
  | n + 1 =>
    let r := dlNext s iteratorId
    r.outcome :: pulls r.state iteratorId n

/-- A reading service used in concrete runs: not checkpointable, no graph
rewriting. -/
def rsPlain : ReadingService :=
  { checkpointable := false
    adaptFn := fun g => g
    restoreFn := fun g _ => g
    initIterFn := fun _ => none
    checkpointFn := 0 }

/-- A checkpointable reading service whose per-iteration hook rewrites the
graph to a single element carrying the current root seed (a seed-sensitive
backend, like a shuffling service). -/
def rsSeeded : ReadingService :=
  { checkpointable := true
    adaptFn := fun g => g
    restoreFn := fun g _ => g
    initIterFn := fun gen => some (fun _ => [PullOutcome.elem gen.rootSeed.toNat])
    checkpointFn := 0 }

/-! Helper lemmas. -/

/-- `shutdown` always leaves `_reset_iter` true. -/
theorem dlShutdown_fst_resetIter (s : DL2State) : (dlShutdown s).1.resetIter = true := by
  unfold dlShutdown
  cases h1 : s.resetIter <;> cases hrs : s.readingService <;>
    simp [h1, hrs] <;> split <;> simp [h1]

/-- `shutdown` always leaves `_terminated` true. -/
theorem dlShutdown_fst_terminated (s : DL2State) : (dlShutdown s).1.terminated = true := by
  unfold dlShutdown
  cases h1 : s.resetIter <;> cases h2 : s.terminated <;> cases hrs : s.readingService <;>
    simp [h1, h2, hrs]

/-- `shutdown` never touches `valid_iterator_id`. -/
theorem dlShutdown_fst_validIteratorId (s : DL2State) :
    (dlShutdown s).1.validIteratorId = s.validIteratorId := by
  unfold dlShutdown
  cases h1 : s.resetIter <;> cases h2 : s.terminated <;> cases hrs : s.readingService <;>
    simp [h1, h2, hrs]

/-- When `_reset_iter` is already true, `shutdown` skips the discard branch
and keeps `_datapipe_iter`. -/
theorem dlShutdown_fst_datapipeIter (s : DL2State) (h : s.resetIter = true) :
    (dlShutdown s).1.datapipeIter = s.datapipeIter := by
  unfold dlShutdown
  cases h2 : s.terminated <;> cases hrs : s.readingService <;> simp [h, h2, hrs]

/-- A second `shutdown` on an already shut-down state is a no-op. -/
theorem dlShutdown_of_done (r : DL2State) (h1 : r.resetIter = true)
    (h2 : r.terminated = true) : dlShutdown r = (r, []) := by
  simp [dlShutdown, h1, h2]

/-- `seedStep` touches only the seed-related fields. -/
theorem seedStep_fields (s : DL2State) :
    (seedStep s).adapted = s.adapted ∧
    (seedStep s).readingService = s.readingService ∧
    (seedStep s).readingServiceState = s.readingServiceState ∧
    (seedStep s).datapipe = s.datapipe ∧
    (seedStep s).terminated = s.terminated ∧
    (seedStep s).datapipeIter = s.datapipeIter ∧
    (seedStep s).resetIter = s.resetIter ∧
    (seedStep s).validIteratorId = s.validIteratorId := by
  unfold seedStep
  split
  · split
    · exact ⟨rfl, rfl, rfl, rfl, rfl, rfl, rfl, rfl⟩
    · exact ⟨rfl, rfl, rfl, rfl, rfl, rfl, rfl, rfl⟩
  · exact ⟨rfl, rfl, rfl, rfl, rfl, rfl, rfl, rfl⟩

/-! Concrete states used by counterexamples and witnesses. -/

/-- A loader over two elements, no reading service. -/
def sC2 : DL2State := dlInit (some [PullOutcome.elem 5, PullOutcome.elem 6]) [] none []

/-- A loader whose graph immediately raises the pause signal, with a reading
service attached, after its first `__iter__` call. -/
def sC3 : DL2State :=
  (dlIter (dlInit (some [PullOutcome.pauseSignal]) [] (some rsPlain) [0])).state

/-- A loader with a non-checkpointable reading service attached. -/
def sC5 : DL2State := dlInit (some [PullOutcome.elem 1]) [] (some rsPlain) [0]

/-- A loader with an empty graph and a reading service, after its first
`__iter__` call (its live iterator is already exhausted). -/
def sC10 : DL2State := (dlIter (dlInit (some []) [] (some rsPlain) [0])).state

/-- A loader with a reading service, after its first `__iter__` call. -/
def sC1 : DL2State :=
  (dlIter (dlInit (some [PullOutcome.elem 1]) [] (some rsPlain) [0])).state

/-! Claim theorems. -/

/-- C9: `shutdown()` is idempotent and never raises on repeated calls: after a
first `shutdown` has completed (leaving the loader terminated), a further
`shutdown` call makes no reading-service calls and returns the state
unchanged.  (`dlShutdown` is total, so no exception escapes it.) -/
theorem dl2_shutdown_idempotent (s : DL2State) :
    dlShutdown (dlShutdown s).1 = ((dlShutdown s).1, []) ∧
    (dlShutdown s).1.terminated = true := by
  exact ⟨dlShutdown_of_done (dlShutdown s).1 (dlShutdown_fst_resetIter s)
           (dlShutdown_fst_terminated s), dlShutdown_fst_terminated s⟩

/-- C10: after natural exhaustion the exhausted proxy remains the valid one:
every further `next()` on it pulls the (still exhausted) underlying iterator
again, raises `StopIteration` again, and calls the reading service's
`finalize_iteration` again — once per extra pull. -/
theorem dl2_exhausted_proxy_repulls (s : DL2State) (k : Nat)
    (hvalid : s.validIteratorId = some k)
    (hiter : s.datapipeIter = some []) :
    (dlNext s k).outcome = NextOutcome.stopped ∧
    (dlNext s k).events =
      (if s.readingService.isSome then [RSEvent.finalizeIteration] else []) ∧
    (dlNext s k).state.validIteratorId = some k ∧
    (dlNext s k).state.datapipeIter = some [] ∧
    (dlNext (dlNext s k).state k).outcome = NextOutcome.stopped ∧
    (dlNext (dlNext s k).state k).events =
      (if s.readingService.isSome then [RSEvent.finalizeIteration] else []) := by
  simp [dlNext, hvalid, hiter]

/-- C10 witness: a concrete exhausted loader; two further pulls both stop and
both call `finalize_iteration`. -/
theorem dl2_exhausted_proxy_repulls_witness :
    (dlNext sC10 0).outcome = NextOutcome.stopped ∧
    (dlNext sC10 0).events = [RSEvent.finalizeIteration] ∧
    (dlNext (dlNext sC10 0).state 0).outcome = NextOutcome.stopped ∧
    (dlNext (dlNext sC10 0).state 0).events = [RSEvent.finalizeIteration] := by
  have h := dl2_exhausted_proxy_repulls sC10 0 (by decide) (by decide)
  exact ⟨h.1, h.2.1.trans (by decide), h.2.2.2.2.1, h.2.2.2.2.2.trans (by decide)⟩

/-- C1: at most one proxy id is valid at any time; a `next()` call on a proxy
whose bound id no longer equals `valid_iterator_id` never returns an element,
always raises the invalid-iterator `RuntimeError`, and calls the attached
reading service's `finalize_iteration` exactly when one is present; and every
successful `__iter__` makes its new proxy the unique valid one, invalidating
every previously valid id. -/
theorem dl2_single_valid_iterator :
    (∀ (s : DL2State) (k j : Nat),
       s.validIteratorId = some k → s.validIteratorId = some j → k = j) ∧
    (∀ (s : DL2State) (k : Nat), s.validIteratorId ≠ some k →
       (dlNext s k).outcome = NextOutcome.stale ∧
       (∀ v, (dlNext s k).outcome ≠ NextOutcome.value v) ∧
       (dlNext s k).events =
         (if s.readingService.isSome then [RSEvent.finalizeIteration] else [])) ∧
    (∀ s : DL2State, (dlIter s).error = none →
       (dlIter s).state.validIteratorId = (dlIter s).iteratorId ∧
       ∀ j, s.validIteratorId = some j →
         (dlIter s).state.validIteratorId ≠ some j) := by
  refine ⟨?_, ?_, ?_⟩
  · intro s k j hk hj
    rw [hk] at hj
    exact Option.some.inj hj
  · intro s k h
    refine ⟨by simp [dlNext, h], ?_, by simp [dlNext, h]⟩
    intro v
    simp [dlNext, h]
  · intro s herr
    by_cases hdp : s.datapipe.isNone
    · simp [dlIter, hdp] at herr
    · by_cases hterm : s.terminated
      · simp [dlIter, hdp, hterm] at herr
      · by_cases hreset : s.resetIter
        · by_cases ha : (adaptStep (seedStep s) (s.datapipe.getD [])).error.isSome
          · simp only [dlIter, hdp, if_false, hterm, hreset, if_true, ha] at herr
            simp [Option.isSome_iff_exists] at ha
            obtain ⟨e, he⟩ := ha
            simp [he] at herr
          · constructor
            · simp [dlIter, hdp, hterm, hreset, ha]
            · intro j hj
              simp [dlIter, hdp, hterm, hreset, ha, bumpId, hj]
        · constructor
          · simp [dlIter, hdp, hterm, hreset]
          · intro j hj
            simp [dlIter, hdp, hterm, hreset, bumpId, hj]

/-- C1 witness: after one `__iter__` on a concrete loader the proxy id `5`
is invalid: `next()` through it is stale, never an element, and calls
`finalize_iteration`; and a further `__iter__` invalidates proxy id `0`. -/
theorem dl2_single_valid_iterator_witness :
    (dlNext sC1 5).outcome = NextOutcome.stale ∧
    (dlNext sC1 5).events = [RSEvent.finalizeIteration] ∧
    (dlNext sC1 5).outcome ≠ NextOutcome.value 1 ∧
    (dlIter sC1).state.validIteratorId ≠ some 0 := by
  have h := dl2_single_valid_iterator.2.1 sC1 5 (by decide)
  have h2 := (dl2_single_valid_iterator.2.2 sC1 (by decide)).2 0 (by decide)
  exact ⟨h.1, h.2.2.trans (by decide), h.2.1 1, h2⟩

/-- C2 counterexample: on a concrete loader, one successful pull through the
valid proxy sets `_reset_iter` back to true (lines 51–52 run it on every
valid `next()`), so the very next `__iter__` draws a fresh iterator over the
full graph instead of reusing the current, partially consumed one. -/
theorem dl2_pull_keeps_flag_clear_cex :
    (dlNext (dlIter sC2).state 0).outcome = NextOutcome.value 5 ∧
    (dlNext (dlIter sC2).state 0).state.resetIter = true ∧
    (dlNext (dlIter sC2).state 0).state.datapipeIter = some [PullOutcome.elem 6] ∧
    (dlIter (dlNext (dlIter sC2).state 0).state).state.datapipeIter =
      some [PullOutcome.elem 5, PullOutcome.elem 6] := by
  refine ⟨by decide, by decide, by decide, by decide⟩

/-- C2 amended: every `next()` call on the valid proxy (successful or not)
sets `_reset_iter`; hence only a second `__iter__` with no intervening pull
returns a new proxy over the existing current-iterator without reseeding,
without re-running the per-iteration hook, and without drawing a fresh
iterator — it merely bumps `valid_iterator_id`, lazily invalidating the old
proxy. -/
theorem dl2_pull_sets_reset_flag :
    (∀ (s : DL2State) (k : Nat), s.validIteratorId = some k →
       (dlNext s k).state.resetIter = true) ∧
    (∀ (s : DL2State) (g : Graph), s.datapipe = some g → s.terminated = false →
       s.resetIter = false →
       dlIter s = ⟨none, { s with validIteratorId := some (bumpId s.validIteratorId) },
                   some (bumpId s.validIteratorId), []⟩) := by
  constructor
  · intro s k h
    unfold dlNext
    rw [if_pos h]
    cases hit : ({ s with resetIter := true } : DL2State).datapipeIter with
    | none => simp [hit, dlShutdown_fst_resetIter]
    | some it =>
      cases it with
      | nil => simp [hit]
      | cons o rest =>
        cases o <;> simp [hit, dlShutdown_fst_resetIter]
  · intro s g hdp hterm hreset
    simp [dlIter, hdp, hterm, hreset]

/-- C2 amended, witness: on the concrete loader, the flag is set by the pull;
and on a loader state whose flag is still clear, `__iter__` only bumps the
valid id. -/
theorem dl2_pull_sets_reset_flag_witness :
    (dlNext (dlIter sC2).state 0).state.resetIter = true ∧
    dlIter (dlIter sC2).state =
      ⟨none, { (dlIter sC2).state with validIteratorId := some 1 }, some 1, []⟩ := by
  constructor
  · exact dl2_pull_sets_reset_flag.1 (dlIter sC2).state 0 (by decide)
  · exact dl2_pull_sets_reset_flag.2 (dlIter sC2).state
      [PullOutcome.elem 5, PullOutcome.elem 6] (by decide) (by decide) (by decide)

/-- C3 counterexample: on a concrete loader whose graph raises the pause
signal, the valid proxy's `next()` raises `StopIteration` with `_reset_iter`
set, but the reading service's `finalize_iteration` is NOT called (the
`except PauseIteration` handler re-raises directly, bypassing the
`StopIteration` handler), unlike natural exhaustion and stale-proxy
cleanup. -/
theorem dl2_pause_invokes_finalize_cex :
    sC3.readingService.isSome = true ∧
    (dlNext sC3 0).outcome = NextOutcome.stopped ∧
    (dlNext sC3 0).state.resetIter = true ∧
    (dlNext sC3 0).events = [] := by
  refine ⟨by decide, by decide, by decide, by decide⟩

/-- C3 amended: when the graph raises the pause signal during `next()`,
`_reset_iter` is set and the pull raises ordinary `StopIteration`, but —
unlike natural exhaustion or stale-proxy cleanup — the reading service's
`finalize_iteration` hook is not invoked, and the loader is otherwise left
untouched (no shutdown, same valid id). -/
theorem dl2_pause_translated_to_exhaustion (s : DL2State) (k : Nat) (rest : Graph)
    (hvalid : s.validIteratorId = some k)
    (hiter : s.datapipeIter = some (PullOutcome.pauseSignal :: rest)) :
    (dlNext s k).outcome = NextOutcome.stopped ∧
    (dlNext s k).state.resetIter = true ∧
    (dlNext s k).events = [] ∧
    (dlNext s k).state.terminated = s.terminated ∧
    (dlNext s k).state.validIteratorId = some k ∧
    (dlNext s k).state.datapipeIter = some rest := by
  simp [dlNext, hvalid, hiter]

/-- C3 amended, witness. -/
theorem dl2_pause_translated_to_exhaustion_witness :
    (dlNext sC3 0).outcome = NextOutcome.stopped ∧
    (dlNext sC3 0).events = [] ∧
    (dlNext sC3 0).state.terminated = false := by
  have h := dl2_pause_translated_to_exhaustion sC3 0 [] (by decide) (by decide)
  exact ⟨h.1, h.2.2.1, h.2.2.2.1.trans (by decide)⟩

/-- A loader whose graph raises an ordinary exception on the first pull,
with a reading service, after its first `__iter__` call. -/
def sC8 : DL2State :=
  (dlIter (dlInit (some [PullOutcome.errSignal, PullOutcome.elem 3]) []
    (some rsPlain) [0])).state

/-- C8 counterexample: on a concrete loader, an ordinary mid-pull exception
does run `shutdown` (`finalize_iteration` + `finalize`, `_terminated` set)
before re-raising, but the current iterator is NOT discarded:
`_datapipe_iter` survives, because line 52 already set `_reset_iter` and
`shutdown`'s discard branch is guarded by `if not self._reset_iter`. -/
theorem dl2_error_discards_iterator_cex :
    (dlNext sC8 0).outcome = NextOutcome.failed ∧
    (dlNext sC8 0).state.terminated = true ∧
    (dlNext sC8 0).events = [RSEvent.finalizeIteration, RSEvent.finalizeService] ∧
    (dlNext sC8 0).state.datapipeIter = some [PullOutcome.elem 3] ∧
    (dlNext sC8 0).state.datapipeIter ≠ none := by
  refine ⟨by decide, by decide, by decide, by decide, by decide⟩

/-- C8 amended: if `next()` on a valid proxy hits an error other than
exhaustion or pause, the full `shutdown()` runs — the reading service's
`finalize_iteration` and `finalize` hooks are invoked and `_terminated` is
set — before the failure is re-raised; the current-iterator handle, however,
is not cleared, since the pull already set `_reset_iter` and `shutdown`'s
discard branch is skipped. -/
theorem dl2_error_triggers_shutdown (s : DL2State) (k : Nat) (rest : Graph)
    (hvalid : s.validIteratorId = some k)
    (hiter : s.datapipeIter = some (PullOutcome.errSignal :: rest))
    (hterm : s.terminated = false) :
    (dlNext s k).outcome = NextOutcome.failed ∧
    (dlNext s k).events =
      (if s.readingService.isSome
       then [RSEvent.finalizeIteration, RSEvent.finalizeService] else []) ∧
    (dlNext s k).state.terminated = true ∧
    (dlNext s k).state.resetIter = true ∧
    (dlNext s k).state.datapipeIter = some rest ∧
    (dlNext s k).state.validIteratorId = some k := by
  unfold dlNext
  rw [if_pos hvalid]
  cases hrs : s.readingService <;> simp [hiter, dlShutdown, hterm, hrs, hvalid]

/-- C8 amended, witness. -/
theorem dl2_error_triggers_shutdown_witness :
    (dlNext sC8 0).outcome = NextOutcome.failed ∧
    (dlNext sC8 0).events = [RSEvent.finalizeIteration, RSEvent.finalizeService] ∧
    (dlNext sC8 0).state.terminated = true ∧
    (dlNext sC8 0).state.datapipeIter = some [PullOutcome.elem 3] := by
  have h := dl2_error_triggers_shutdown sC8 0 [PullOutcome.elem 3]
    (by decide) (by decide) (by decide)
  exact ⟨h.1, h.2.1.trans (by decide), h.2.2.1, h.2.2.2.2.1⟩

/-- C7 counterexample: `seed(-1)` succeeds — the only guard is
`seed >= _UINT64_UPPER_BOUND`, so negative values are not rejected; `-1` is
stored as the pending seed with the reseed flag forced. -/
theorem dl2_seed_rejects_negative_cex :
    (dlSeed sC2 (-1)).1 = none ∧
    (dlSeed sC2 (-1)).2.seed = some (-1) ∧
    (dlSeed sC2 (-1)).2.resetSeed = true := by
  refine ⟨by decide, by decide, by decide⟩

/-- C7 amended: `seed(s)` raises `ValueError` exactly when `s` is at or above
the 64-bit upper bound; a failing call leaves the loader unchanged, while a
succeeding call (any `s` below the bound, negative values included) stores
`s` as pending and forces reseeding at the next `__iter__`. -/
theorem dl2_seed_range_check :
    (∀ (s : DL2State) (v : Int), UINT64_UPPER_BOUND ≤ v →
       dlSeed s v = (some DLError.valueRange, s)) ∧
    (∀ (s : DL2State) (v : Int), v < UINT64_UPPER_BOUND →
       dlSeed s v = (none, { s with seed := some v, resetSeed := true })) := by
  constructor
  · intro s v h
    simp [dlSeed, h]
  · intro s v h
    simp [dlSeed, not_le.mpr h]

/-- C7 amended, witness: the bound itself is rejected with the state kept;
`5` is accepted and stored. -/
theorem dl2_seed_range_check_witness :
    dlSeed sC2 (2 ^ 64) = (some DLError.valueRange, sC2) ∧
    dlSeed sC2 5 = (none, { sC2 with seed := some 5, resetSeed := true }) := by
  exact ⟨dl2_seed_range_check.1 sC2 (2 ^ 64) (by norm_num [UINT64_UPPER_BOUND]),
         dl2_seed_range_check.2 sC2 5 (by norm_num [UINT64_UPPER_BOUND])⟩

/-- C5 counterexample: `state_dict()` on a concrete loader with a
NON-checkpointable reading service attached returns normally — a bundle with
the serialized pre-adaptation graph and an absent reading-service state —
instead of raising the claimed error (`state_dict` has no failure path). -/
theorem dl2_state_dict_fails_cex :
    sC5.readingService.isSome = true ∧
    (dlStateDict sC5).serializedDatapipe = some [PullOutcome.elem 1] ∧
    (dlStateDict sC5).readingServiceState = none := by
  refine ⟨by decide, by decide, by decide⟩

/-- C5 amended: `state_dict()` never fails.  The bundle always holds the
serialized pre-adaptation graph snapshot; its reading-service slot holds the
backend-serialized state when a checkpointable reading service is attached
and is absent otherwise (non-checkpointable service, or no service).  The
failure the claim describes arises instead at restore-consumption time: an
`__iter__` that must restore from a loaded state with a non-checkpointable
reading service raises `TypeError`. -/
theorem dl2_state_dict_contents :
    (∀ (s : DL2State) (rs : ReadingService), s.readingService = some rs →
       rs.checkpointable = false →
       dlStateDict s = { serializedDatapipe := serializeDatapipe s.datapipeBeforeRSAdapt
                         readingServiceState := none }) ∧
    (∀ (s : DL2State) (rs : ReadingService), s.readingService = some rs →
       rs.checkpointable = true →
       dlStateDict s = { serializedDatapipe := serializeDatapipe s.datapipeBeforeRSAdapt
                         readingServiceState := some rs.checkpointFn }) ∧
    (∀ s : DL2State, s.readingService = none →
       dlStateDict s = { serializedDatapipe := serializeDatapipe s.datapipeBeforeRSAdapt
                         readingServiceState := none }) ∧
    (∀ (s : DL2State) (rs : ReadingService) (st : RSState) (g : Graph),
       s.readingService = some rs → rs.checkpointable = false →
       s.readingServiceState = some st → s.adapted = false →
       s.datapipe = some g → s.terminated = false → s.resetIter = true →
       (dlIter s).error = some DLError.nonCheckpointableRestore) := by
  refine ⟨?_, ?_, ?_, ?_⟩
  · intro s rs hrs hck
    simp [dlStateDict, hrs, hck]
  · intro s rs hrs hck
    simp [dlStateDict, hrs, hck]
  · intro s hrs
    simp [dlStateDict, hrs]
  · intro s rs st g hrs hck hst had hdp hterm hreset
    have hf := seedStep_fields s
    have hadapt : (adaptStep (seedStep s) g).error =
        some DLError.nonCheckpointableRestore := by
      simp [adaptStep, hf.1, had, hf.2.1, hrs, hf.2.2.1, hst, hck]
    simp [dlIter, hdp, hterm, hreset, hadapt]

/-- C5 amended, witness: the concrete non-checkpointable bundle, plus a
restore-consuming `__iter__` that raises `TypeError` on a loader whose state
slot was loaded. -/
theorem dl2_state_dict_contents_witness :
    dlStateDict sC5 = { serializedDatapipe := some [PullOutcome.elem 1]
                        readingServiceState := none } ∧
    (dlIter { sC5 with readingServiceState := some 0 }).error =
      some DLError.nonCheckpointableRestore := by
  constructor
  · exact dl2_state_dict_contents.1 sC5 rsPlain rfl rfl
  · exact dl2_state_dict_contents.2.2.2 { sC5 with readingServiceState := some 0 }
      rsPlain 0 [PullOutcome.elem 1] rfl rfl rfl rfl rfl rfl rfl

/-- Whatever `__iter__` does after the seed-handling block, it leaves the
seed-related fields as `seedStep` set them. -/
theorem dlIter_seed_fields (s : DL2State) (g : Graph)
    (hdp : s.datapipe = some g) (hterm : s.terminated = false)
    (hreset : s.resetIter = true) :
    (dlIter s).state.seedGenerator = (seedStep s).seedGenerator ∧
    (dlIter s).state.resetSeed = (seedStep s).resetSeed ∧
    (dlIter s).state.entropy = (seedStep s).entropy := by
  simp only [dlIter, hdp, Option.isNone_some, Bool.false_eq_true, if_false,
             hterm, hreset, if_true]
  split <;> exact ⟨rfl, rfl, rfl⟩

/-- A loader constructed with entropy `[7]` on which `seed(0)` was called:
the pending seed `0` is set and unconsumed. -/
def z1 : DL2State := (dlSeed (dlInit (some []) [] none [7]) 0).2

/-- A loader with a nonzero pending seed that was already consumed
(`_reset_seed` false), a mid-derivation generator, and entropy `[7]`. -/
def z2 : DL2State :=
  { dlInit (some []) [] none [7] with
      seed := some 5, resetSeed := false, seedGenerator := ⟨11, 3⟩ }

/-- C6 counterexample: two concrete session starts contradict the claim.
On `z1` the pending user seed `0` — a valid unsigned value, set and
unconsumed — is NOT applied: `if self._seed:` treats `0` as falsy, so a
fresh root (`7`, from entropy) is generated instead.  On `z2` (nonzero
pending seed already consumed) the claim demands a fresh root, but the
generator is left completely untouched and no entropy is drawn. -/
theorem dl2_seed_application_cex :
    z1.seed = some 0 ∧ z1.resetSeed = true ∧
    (dlIter z1).state.seedGenerator = ⟨7, 0⟩ ∧
    (dlIter z1).state.seedGenerator ≠ seedGenReseed 0 ∧
    z2.seed = some 5 ∧ z2.resetSeed = false ∧
    (dlIter z2).state.seedGenerator = ⟨11, 3⟩ ∧
    (dlIter z2).state.entropy = [7] := by
  refine ⟨by decide, by decide, by decide, by decide, by decide, by decide,
          by decide, by decide⟩

/-- C6 amended: at a session start (`_reset_iter` true), the seed handling
is: a NONZERO pending seed that is set and not yet consumed is applied to the
Seed Generator (consuming it); if no pending seed is set — or the pending
seed is `0`, which Python truthiness ignores — a fresh root seed is drawn;
and if a nonzero pending seed was already consumed the generator is left
untouched.  The handling precedes reading-service adaptation and iterator
drawing: the per-iteration hook receives the post-handling generator and the
iterator is drawn from the graph it returns. -/
theorem dl2_seed_application (s : DL2State) (g : Graph)
    (hdp : s.datapipe = some g) (hterm : s.terminated = false)
    (hreset : s.resetIter = true) :
    (∀ v : Int, s.seed = some v → v ≠ 0 → s.resetSeed = true →
       (dlIter s).state.seedGenerator = seedGenReseed v ∧
       (dlIter s).state.resetSeed = false ∧
       (dlIter s).state.entropy = s.entropy) ∧
    (∀ v : Int, s.seed = some v → v ≠ 0 → s.resetSeed = false →
       (dlIter s).state.seedGenerator = s.seedGenerator ∧
       (dlIter s).state.entropy = s.entropy) ∧
    ((s.seed = none ∨ s.seed = some 0) →
       (dlIter s).state.seedGenerator = seedGenReseed (s.entropy.headD 0) ∧
       (dlIter s).state.entropy = s.entropy.tail) ∧
    ((dlIter s).error = none →
       (dlIter s).state.datapipeIter =
         some (initIterStep s.readingService (seedStep s).seedGenerator
               (adaptStep (seedStep s) g).graph).1) := by
  obtain ⟨hgen, hrs2, hent⟩ := dlIter_seed_fields s g hdp hterm hreset
  refine ⟨?_, ?_, ?_, ?_⟩
  · intro v hv hv0 hrss
    have ht : seedTruthy (some v) = true := by simp [seedTruthy, hv0]
    rw [hgen, hrs2, hent]
    simp [seedStep, hv, ht, hrss]
  · intro v hv hv0 hrss
    have ht : seedTruthy (some v) = true := by simp [seedTruthy, hv0]
    rw [hgen, hent]
    simp [seedStep, hv, ht, hrss]
  · intro hv
    have ht : seedTruthy s.seed = false := by
      rcases hv with hv | hv <;> simp [seedTruthy, hv]
    rw [hgen, hent]
    simp [seedStep, ht]
  · intro herr
    have hrsv : (seedStep s).readingService = s.readingService := (seedStep_fields s).2.1
    by_cases ha : (adaptStep (seedStep s) g).error.isSome
    · simp [dlIter, hdp, hterm, hreset, ha] at herr
      simp [Option.isSome_iff_exists] at ha
      obtain ⟨e, he⟩ := ha
      simp [he] at herr
    · simp [dlIter, hdp, hterm, hreset, ha, hrsv]

/-- C6 amended, witness: applying the theorem to `z2` (consumed nonzero
pending seed: generator untouched) and to `z1` (pending seed `0`: fresh root
drawn from entropy). -/
theorem dl2_seed_application_witness :
    (dlIter z2).state.seedGenerator = z2.seedGenerator ∧
    (dlIter z1).state.seedGenerator = seedGenReseed (z1.entropy.headD 0) ∧
    (dlIter z1).state.entropy = z1.entropy.tail := by
  have h2 := (dl2_seed_application z2 [] rfl rfl rfl).2.1 5 rfl (by decide) rfl
  have h1 := (dl2_seed_application z1 [] rfl rfl rfl).2.2.1 (Or.inr rfl)
  exact ⟨h2.1, h1.1, h1.2⟩

/-- The outcome sequence seen through a valid proxy depends only on the
current iterator: two loaders with equal `_datapipe_iter` and valid proxies
produce identical pull-outcome sequences. -/
theorem pulls_congr (n : Nat) :
    ∀ (s t : DL2State) (k j : Nat), s.validIteratorId = some k →
      t.validIteratorId = some j → s.datapipeIter = t.datapipeIter →
      pulls s k n = pulls t j n := by
  induction n with
  | zero =>
    intro s t k j _ _ _
    rfl
  | succ m ih =>
    intro s t k j hs ht hd
    simp only [pulls]
    unfold dlNext
    rw [if_pos hs, if_pos ht]
    dsimp only
    rw [hd]
    cases hit : t.datapipeIter with
    | none =>
      dsimp only
      refine congrArg₂ List.cons rfl (ih _ _ k j ?_ ?_ ?_)
      · rw [dlShutdown_fst_validIteratorId]; exact hs
      · rw [dlShutdown_fst_validIteratorId]; exact ht
      · rw [dlShutdown_fst_datapipeIter _ rfl, dlShutdown_fst_datapipeIter _ rfl]
    | some it =>
      cases it with
      | nil =>
        dsimp only
        exact congrArg₂ List.cons rfl (ih _ _ k j hs ht rfl)
      | cons o rest =>
        cases o with
        | elem v =>
          dsimp only
          exact congrArg₂ List.cons rfl (ih _ _ k j hs ht rfl)
        | pauseSignal =>
          dsimp only
          exact congrArg₂ List.cons rfl (ih _ _ k j hs ht rfl)
        | errSignal =>
          dsimp only
          refine congrArg₂ List.cons rfl (ih _ _ k j ?_ ?_ ?_)
          · rw [dlShutdown_fst_validIteratorId]; exact hs
          · rw [dlShutdown_fst_validIteratorId]; exact ht
          · rw [dlShutdown_fst_datapipeIter _ rfl, dlShutdown_fst_datapipeIter _ rfl]

/-- Full characterization of a successful `__iter__` on the `_reset_iter`
path: seed handling, adaptation, per-iteration hook, fresh iterator, id
bump. -/
theorem dlIter_reset_ok (s : DL2State) (g : Graph)
    (hdp : s.datapipe = some g) (hterm : s.terminated = false)
    (hreset : s.resetIter = true)
    (hok : (adaptStep (seedStep s) g).error = none) :
    dlIter s =
      ⟨none,
       { seedStep s with
           datapipe := some (initIterStep (seedStep s).readingService
             (seedStep s).seedGenerator (adaptStep (seedStep s) g).graph).1
           adapted := (adaptStep (seedStep s) g).adapted
           datapipeIter := some (initIterStep (seedStep s).readingService
             (seedStep s).seedGenerator (adaptStep (seedStep s) g).graph).1
           resetIter := false
           validIteratorId := some (bumpId s.validIteratorId) }
       , some (bumpId s.validIteratorId),
       (adaptStep (seedStep s) g).events ++
         (initIterStep (seedStep s).readingService (seedStep s).seedGenerator
           (adaptStep (seedStep s) g).graph).2⟩ := by
  simp [dlIter, hdp, hterm, hreset, hok]

/-- The loader used by the C4 counterexample: one-element graph, a
checkpointable seed-sensitive reading service, entropy `[10, 20]`. -/
def orig0 : DL2State := dlInit (some [PullOutcome.elem 99]) [] (some rsSeeded) [10, 20]

/-- `orig0` after one full session (start, pull the element, hit
exhaustion): between sessions, checkpointable. -/
def origMid : DL2State := (dlNext (dlNext (dlIter orig0).state 0).state 0).state

/-- A fresh loader restored from `origMid`'s checkpoint with the same
reading service but its own entropy `[30]`. -/
def restoredC4 : DL2State := dlFromState (dlStateDict origMid) rsSeeded [30]

/-- C4 counterexample: checkpoint between sessions, restore into a fresh
loader with the very same (hence equivalent) reading service and no adapters
anywhere; yet continuing the original yields `[20, stop]` while the restored
loader yields `[30, stop]` — the two session starts draw different fresh
root seeds (no pending user seed is set), and the seed-sensitive
per-iteration hook makes that visible in the element sequence. -/
theorem dl2_checkpoint_roundtrip_cex :
    (dlIter origMid).iteratorId = some 1 ∧
    (dlIter restoredC4).iteratorId = some 0 ∧
    pulls (dlIter origMid).state 1 2 =
      [NextOutcome.value 20, NextOutcome.stopped] ∧
    pulls (dlIter restoredC4).state 0 2 =
      [NextOutcome.value 30, NextOutcome.stopped] ∧
    pulls (dlIter origMid).state 1 2 ≠ pulls (dlIter restoredC4).state 0 2 := by
  refine ⟨by decide, by decide, by decide, by decide, by decide⟩

/-- C4 amended: `state_dict()` between sessions followed by `from_state` into
a fresh loader with an equivalent reading service (same service, whose
`restore` reproduces from the pre-adaptation snapshot and its checkpoint
state exactly the adapted graph the original currently holds) yields an
iteration sequence identical to continuing the original, provided
additionally that the two session starts reseed identically — here: no
pending user seed on the original and an equal fresh root seed drawn on both
sides.  (Without that seed condition the property fails, as the
counterexample shows.) -/
theorem dl2_checkpoint_roundtrip (s : DL2State) (g p : Graph) (rs : ReadingService)
    (e : Int) (er es : List Int)
    (hdp : s.datapipe = some g)
    (hpre : s.datapipeBeforeRSAdapt = some p)
    (hrs : s.readingService = some rs)
    (hck : rs.checkpointable = true)
    (hadapted : s.adapted = true)
    (hterm : s.terminated = false)
    (hreset : s.resetIter = true)
    (hseed : s.seed = none)
    (hent : s.entropy = e :: es)
    (hfaithful : rs.restoreFn p rs.checkpointFn = g) :
    (dlIter s).error = none ∧
    (dlIter (dlFromState (dlStateDict s) rs (e :: er))).error = none ∧
    ∀ (n k1 k2 : Nat), (dlIter s).iteratorId = some k1 →
      (dlIter (dlFromState (dlStateDict s) rs (e :: er))).iteratorId = some k2 →
      pulls (dlIter s).state k1 n =
        pulls (dlIter (dlFromState (dlStateDict s) rs (e :: er))).state k2 n := by
  have hts : seedTruthy s.seed = false := by simp [seedTruthy, hseed]
  have hseedstep : seedStep s =
      { s with seedGenerator := seedGenReseed e, entropy := es } := by
    simp [seedStep, hts, hent]
  have hadaptS : adaptStep (seedStep s) g = ⟨none, g, true, []⟩ := by
    rw [hseedstep]
    simp [adaptStep, hadapted]
  have hA := dlIter_reset_ok s g hdp hterm hreset (by rw [hadaptS])
  have hbundle : dlStateDict s =
      { serializedDatapipe := some p, readingServiceState := some rs.checkpointFn } := by
    simp [dlStateDict, serializeDatapipe, hpre, hrs, hck]
  have hrestored : dlFromState (dlStateDict s) rs (e :: er) =
      { datapipe := some p, adapted := false, datapipeIter := none,
        resetIter := true, readingService := some rs,
        readingServiceState := some rs.checkpointFn, terminated := false,
        validIteratorId := none, datapipeBeforeRSAdapt := some p,
        seedGenerator := ⟨0, 0⟩, seed := none, resetSeed := true,
        entropy := e :: er } := by
    rw [hbundle]
    rfl
  have hadaptR : adaptStep (seedStep
      { datapipe := some p, adapted := false, datapipeIter := none,
        resetIter := true, readingService := some rs,
        readingServiceState := some rs.checkpointFn, terminated := false,
        validIteratorId := none, datapipeBeforeRSAdapt := some p,
        seedGenerator := ⟨0, 0⟩, seed := none, resetSeed := true,
        entropy := e :: er }) p = ⟨none, g, true, [RSEvent.adaptRestore]⟩ := by
    simp [seedStep, seedTruthy, adaptStep, hck, hfaithful]
  have hB := dlIter_reset_ok
      { datapipe := some p, adapted := false, datapipeIter := none,
        resetIter := true, readingService := some rs,
        readingServiceState := some rs.checkpointFn, terminated := false,
        validIteratorId := none, datapipeBeforeRSAdapt := some p,
        seedGenerator := ⟨0, 0⟩, seed := none, resetSeed := true,
        entropy := e :: er } p rfl rfl rfl (by rw [hadaptR])
  rw [hrestored, hA, hB]
  refine ⟨rfl, rfl, ?_⟩
  intro n k1 k2 hk1 hk2
  dsimp only at hk1 hk2 ⊢
  refine pulls_congr n _ _ k1 k2 ?_ ?_ ?_
  · rw [← Option.some.inj hk1]
  · rw [← Option.some.inj hk2]
  · dsimp only
    rw [hadaptS, hadaptR, hseedstep]
    dsimp only
    rw [hrs]
    simp [seedStep, seedTruthy]

/-- A concrete between-sessions loader satisfying all round-trip
hypotheses. -/
def sC4w : DL2State :=
  { datapipe := some [PullOutcome.elem 8], adapted := true, datapipeIter := none,
    resetIter := true, readingService := some rsSeeded, readingServiceState := none,
    terminated := false, validIteratorId := some 0,
    datapipeBeforeRSAdapt := some [PullOutcome.elem 8],
    seedGenerator := ⟨3, 0⟩, seed := none, resetSeed := true, entropy := [4, 9] }

/-- C4 amended, witness: with equal fresh root seeds (`4`) on both sides the
restored loader replays exactly the continuation of the original. -/
theorem dl2_checkpoint_roundtrip_witness :
    (dlIter sC4w).error = none ∧
    (dlIter (dlFromState (dlStateDict sC4w) rsSeeded [4])).error = none ∧
    pulls (dlIter sC4w).state 1 2 =
      pulls (dlIter (dlFromState (dlStateDict sC4w) rsSeeded [4])).state 0 2 := by
  have h := dl2_checkpoint_roundtrip sC4w [PullOutcome.elem 8] [PullOutcome.elem 8]
    rsSeeded 4 [] [9] rfl rfl rfl rfl rfl rfl rfl rfl rfl rfl
  exact ⟨h.1, h.2.1, h.2.2 2 1 0 (by decide) (by decide)⟩
